import Mathlib

/-!
Verification development for the PennyPilot transaction core
(src/app/(main)/transaction/create/page.jsx).

The embedding covers:
* the JavaScript calendar arithmetic used by calculateNextRecurringDate
  (Date.setDate / setMonth / setFullYear with overflow normalization);
* the persistence state (users, accounts, transactions) and the four
  server actions createTransaction, getTransaction, updateTransaction,
  getUserTransactions, with the Prisma interactive transaction modelled
  as an all-or-nothing step and each thrown error modelled as a value of
  an error type caught at the action boundary.

Monetary amounts are modelled as integers: every property checked here
is linear algebra over the amounts, independent of the numeric carrier.
-/

/-! ## Calendar model (ECMAScript Date as used by the source) -/

/-- A calendar date in the JavaScript convention: `month` is 0-based
(0 = January), `day` is 1-based. -/
structure JSDate where
  year : Int
  month : Nat
  day : Nat
deriving DecidableEq, Repr

/-- Gregorian leap-year rule, as implemented by ECMAScript Date. -/
def isLeapYear (y : Int) : Bool :=
  (y % 4 == 0 && y % 100 != 0) || (y % 400 == 0)

/-- Number of days of month `m` (0-based) of year `y`. Arguments 11 and
above all map to 31, matching December; normalized months never exceed 11. -/
def daysInMonth (y : Int) (m : Nat) : Nat :=
  match m with
  | 0 => 31
  | 1 => if isLeapYear y then 29 else 28
  | 2 => 31
  | 3 => 30
  | 4 => 31
  | 5 => 30
  | 6 => 31
  | 7 => 31
  | 8 => 30
  | 9 => 31
  | 10 => 30
  | _ => 31

/-- Day-overflow normalization of ECMAScript Date: while the day count
exceeds the current month, borrow a month (and possibly a year). The
first argument is fuel making the recursion structural; each borrow
removes at least 28 days, so fuel equal to the day count is always
sufficient and the fuel never runs out on the calls made below. -/
def normDayFuel : Nat → Int → Nat → Nat → JSDate
  | 0, y, m, d => ⟨y, m, d⟩
  | fuel + 1, y, m, d =>
    if daysInMonth y m < d then
      (if m == 11 then normDayFuel fuel (y + 1) 0 (d - daysInMonth y m)
       else normDayFuel fuel y (m + 1) (d - daysInMonth y m))
    else ⟨y, m, d⟩

/-- Normalize a year/month/day triple whose day may overflow the month. -/
def normDay (y : Int) (m : Nat) (d : Nat) : JSDate :=
  normDayFuel d y m d

/-- ECMAScript `date.setDate(date.getDate() + k)`. -/
def JSDate.setDatePlus (dt : JSDate) (k : Nat) : JSDate :=
  normDay dt.year dt.month (dt.day + k)

/-- ECMAScript `date.setMonth(date.getMonth() + k)`: month overflow rolls
into the year, then day overflow (e.g. Jan 31 → Feb 31) normalizes
forward exactly as Date does. -/
def JSDate.setMonthPlus (dt : JSDate) (k : Nat) : JSDate :=
  normDay (dt.year + ((dt.month + k) / 12 : Nat)) ((dt.month + k) % 12) dt.day

/-- ECMAScript `date.setFullYear(date.getFullYear() + k)`: day overflow
(Feb 29 in a non-leap target year) normalizes forward as Date does. -/
def JSDate.setFullYearPlus (dt : JSDate) (k : Nat) : JSDate :=
  normDay (dt.year + k) dt.month dt.day

/-- Embeds `calculateNextRecurringDate(startDate, interval)` from the
source: a fresh copy of the start date, then four independent `if`
statements keyed on the interval string, then the date is returned.
An absent interval is `none`; any other string leaves the date alone. -/
def calculateNextRecurringDate (startDate : JSDate) (interval : Option String) : JSDate :=
  let date := startDate
  let date := if interval == some ("DAILY") then date.setDatePlus 1 else date
  let date := if interval == some ("WEEKLY") then date.setDatePlus 7 else date
  let date := if interval == some ("MONTHLY") then date.setMonthPlus 1 else date
  let date := if interval == some ("YEARLY") then date.setFullYearPlus 1 else date
  date

/-! ## Specification-side calendar notions -/

/-- A date is valid when its month is in range and its day fits the month. -/
def ValidDate (dt : JSDate) : Prop :=
  dt.month ≤ 11 ∧ 1 ≤ dt.day ∧ dt.day ≤ daysInMonth dt.year dt.month

instance : DecidablePred ValidDate := fun dt => by
  unfold ValidDate; infer_instance

/-- The calendar successor of a date: spec-side notion of the date
exactly one day later. -/
def nextCalendarDay (dt : JSDate) : JSDate :=
  if dt.day < daysInMonth dt.year dt.month then ⟨dt.year, dt.month, dt.day + 1⟩
  else if dt.month == 11 then ⟨dt.year + 1, 0, 1⟩
  else ⟨dt.year, dt.month + 1, 1⟩

/-- The date exactly `n` calendar days after `dt`. -/
def addCalendarDays : Nat → JSDate → JSDate
  | 0, dt => dt
  | n + 1, dt => addCalendarDays n (nextCalendarDay dt)

/-! ## Persistence data model -/

/-- Transaction type enumeration from the Prisma schema. -/
inductive TxType where
  | INCOME
  | EXPENSE
deriving DecidableEq, Repr

/-- A user row: internal id plus the identity-provider id. -/
structure User where
  id : Nat
  clerkUserId : String
deriving DecidableEq, Repr

/-- An account row: id, owning user, running balance. -/
structure Account where
  id : Nat
  userId : Nat
  balance : Int
deriving DecidableEq, Repr

/-- A stored transaction row. -/
structure Transaction where
  id : Nat
  userId : Nat
  accountId : Nat
  type : TxType
  amount : Int
  date : JSDate
  description : String
  isRecurring : Bool
  recurringInterval : Option String
  nextRecurringDate : Option JSDate
deriving DecidableEq, Repr

/-- The `data` object passed to createTransaction / updateTransaction. -/
structure TxData where
  accountId : Nat
  type : TxType
  amount : Int
  date : JSDate
  description : String
  isRecurring : Bool
  recurringInterval : Option String
deriving DecidableEq, Repr

/-- The decision object returned by the abuse-limiting collaborator. -/
structure ArcjetDecision where
  isDenied : Bool
  reasonIsRateLimit : Bool
deriving DecidableEq, Repr

/-- The errors thrown by the source (plus the record-not-found error the
persistence layer raises when a write targets a missing row). -/
inductive TxError where
  | unauthorized
  | rateLimited
  | blocked
  | userNotFound
  | accountNotFound
  | transactionNotFound
  | recordNotFound
deriving DecidableEq, Repr

/-- The message attached to each thrown error. -/
def TxError.message : TxError → String
  | .unauthorized => "Unauthorized"
  | .rateLimited => "Too many requests. Please try again later."
  | .blocked => "Request blocked"
  | .userNotFound => "User not found"
  | .accountNotFound => "Account not found"
  | .transactionNotFound => "Transaction not found"
  | .recordNotFound => "Record not found"

/-- The uniform result object returned from the action boundary:
either success with data, or failure with an error message. -/
structure ActionResult (α : Type) where
  success : Bool
  data : Option α
  error : Option String
deriving DecidableEq, Repr

/-- The database state the actions read and write. `nextId` models the
id generator for transaction rows. -/
structure DB where
  users : List User
  accounts : List Account
  transactions : List Transaction
  nextId : Nat
deriving DecidableEq, Repr

/-- `db.user.findUnique(\x7b where: \x7b clerkUserId \x7d \x7d)`. -/
def DB.findUser (db : DB) (clerkId : String) : Option User :=
  db.users.find? (fun u => u.clerkUserId == clerkId)

/-- `db.account.findUnique(\x7b where: \x7b id, userId \x7d \x7d)`: point lookup
with the ownership filter. -/
def DB.findAccount (db : DB) (accId uid : Nat) : Option Account :=
  db.accounts.find? (fun a => a.id == accId && a.userId == uid)

/-- `db.transaction.findUnique(\x7b where: \x7b id, userId \x7d \x7d)`. -/
def DB.findTransaction (db : DB) (tid uid : Nat) : Option Transaction :=
  db.transactions.find? (fun t => t.id == tid && t.userId == uid)

/-- `tx.transaction.create`: appends the row and advances the id
generator. -/
def DB.insertTransaction (db : DB) (t : Transaction) : DB :=
  { db with transactions := db.transactions ++ [t], nextId := db.nextId + 1 }

/-- `tx.transaction.update(\x7b where: \x7b id, userId \x7d \x7d)`: replaces the
matching row, or raises the record-not-found error when no row matches. -/
def DB.updateTransactionRow (db : DB) (tid uid : Nat) (t : Transaction) :
    Except TxError DB :=
  if db.transactions.any (fun u => u.id == tid && u.userId == uid) then
    .ok { db with transactions :=
            db.transactions.map (fun u => if u.id == tid && u.userId == uid then t else u) }
  else .error .recordNotFound

/-- `tx.account.update(\x7b where: \x7b id \x7d, data: \x7b balance: \x7b increment \x7d \x7d \x7d)`:
note the where clause filters on the account id only, with no ownership
filter, exactly as in the source. Raises record-not-found when the id
does not exist. -/
def DB.incrementBalance (db : DB) (accId : Nat) (delta : Int) : Except TxError DB :=
  if db.accounts.any (fun a => a.id == accId) then
    .ok { db with accounts :=
            db.accounts.map (fun a =>
              if a.id == accId then { a with balance := a.balance + delta } else a) }
  else .error .recordNotFound

/-- The balance of the account with the given id, if any. -/
def DB.getBalance (db : DB) (accId : Nat) : Option Int :=
  (db.accounts.find? (fun a => a.id == accId)).map (fun a => a.balance)

/-- JavaScript truthiness of the optional interval string, as tested by
`data.isRecurring && data.recurringInterval`: absent and empty strings
are falsy. -/
def truthy (s : Option String) : Bool :=
  match s with
  | none => false
  | some str => !str.isEmpty

/-- `serializeAmount`: converts the stored decimal amount to a plain
number. In the integer model of amounts this conversion is the
identity. -/
def serializeAmount (t : Transaction) : Transaction := t

/-! ## The server actions -/

/-- The row createTransaction passes to `tx.transaction.create`: every
field of `data`, the internal user id, and the computed next recurring
date (`data.isRecurring && data.recurringInterval` with JavaScript
truthiness). -/
def newTransactionRow (db : DB) (user : User) (data : TxData) : Transaction :=
  { id := db.nextId
    userId := user.id
    accountId := data.accountId
    type := data.type
    amount := data.amount
    date := data.date
    description := data.description
    isRecurring := data.isRecurring
    recurringInterval := data.recurringInterval
    nextRecurringDate :=
      if data.isRecurring && truthy data.recurringInterval then
        some (calculateNextRecurringDate data.date data.recurringInterval)
      else none }

/-- The body of createTransaction up to the try/catch boundary. Each
`throw new Error(...)` is an `Except.error`; the Prisma interactive
transaction is all-or-nothing: when any step inside it errors, no state
escapes, so the caller keeps the prior database. The caller identity
and the abuse-limiting decision are inputs supplied by the external
collaborators. The balance change is the ternary
`data.type === "EXPENSE" ? -data.amount : data.amount` of the source. -/
def createTransactionRaw (authUserId : Option String) (decision : ArcjetDecision)
    (data : TxData) (db : DB) : Except TxError (Transaction × DB) :=
  match authUserId with
  | none => .error .unauthorized
  | some userId =>
    if decision.isDenied then
      (if decision.reasonIsRateLimit then .error .rateLimited else .error .blocked)
    else
      match db.findUser userId with
      | none => .error .userNotFound
      | some user =>
        match db.findAccount data.accountId user.id with
        | none => .error .accountNotFound
        | some _account =>
          match (db.insertTransaction (newTransactionRow db user data)).incrementBalance
              data.accountId
              (if data.type == TxType.EXPENSE then -data.amount else data.amount) with
          | .error e => .error e
          | .ok db2 => .ok (newTransactionRow db user data, db2)

/-- createTransaction with its try/catch boundary: failures are caught
and reported in the uniform result object, leaving the database as it
was before the call. -/
def createTransaction (authUserId : Option String) (decision : ArcjetDecision)
    (data : TxData) (db : DB) : ActionResult Transaction × DB :=
  match createTransactionRaw authUserId decision data db with
  | .ok (t, db2) => ({ success := true, data := some (serializeAmount t), error := none }, db2)
  | .error e => ({ success := false, data := none, error := some e.message }, db)

/-- getTransaction: no try/catch in the source, so every failure
propagates to the caller as an `Except.error`. -/
def getTransaction (authUserId : Option String) (tid : Nat) (db : DB) :
    Except TxError Transaction :=
  match authUserId with
  | none => .error .unauthorized
  | some userId =>
    match db.findUser userId with
    | none => .error .userNotFound
    | some user =>
      match db.findTransaction tid user.id with
      | none => .error .transactionNotFound
      | some t => .ok (serializeAmount t)

/-- The row updateTransaction passes to `tx.transaction.update`: it
keeps the original id and userId and takes every field of `data`, plus
the recomputed next recurring date. -/
def updatedTransactionRow (original : Transaction) (data : TxData) : Transaction :=
  { original with
      accountId := data.accountId
      type := data.type
      amount := data.amount
      date := data.date
      description := data.description
      isRecurring := data.isRecurring
      recurringInterval := data.recurringInterval
      nextRecurringDate :=
        if data.isRecurring && truthy data.recurringInterval then
          some (calculateNextRecurringDate data.date data.recurringInterval)
        else none }

/-- The net change of the update path:
`newChange - oldChange`, each one the signed-amount ternary of the
source applied to the new and the original (type, amount). -/
def netChange (original : Transaction) (data : TxData) : Int :=
  (if data.type == TxType.EXPENSE then -data.amount else data.amount) -
    (if original.type == TxType.EXPENSE then -original.amount else original.amount)

/-- The body of updateTransaction up to the try/catch boundary. The
original row is loaded with the ownership filter; the balance increment
targets `data.accountId` with no ownership filter, exactly as in the
source. Both writes sit inside the all-or-nothing persistence
transaction. -/
def updateTransactionRaw (authUserId : Option String) (tid : Nat)
    (data : TxData) (db : DB) : Except TxError (Transaction × DB) :=
  match authUserId with
  | none => .error .unauthorized
  | some userId =>
    match db.findUser userId with
    | none => .error .userNotFound
    | some user =>
      match db.findTransaction tid user.id with
      | none => .error .transactionNotFound
      | some original =>
        match db.updateTransactionRow tid user.id (updatedTransactionRow original data) with
        | .error e => .error e
        | .ok db1 =>
          match db1.incrementBalance data.accountId (netChange original data) with
          | .error e => .error e
          | .ok db2 => .ok (updatedTransactionRow original data, db2)

/-- updateTransaction with its try/catch boundary. -/
def updateTransaction (authUserId : Option String) (tid : Nat)
    (data : TxData) (db : DB) : ActionResult Transaction × DB :=
  match updateTransactionRaw authUserId tid data db with
  | .ok (t, db2) => ({ success := true, data := some (serializeAmount t), error := none }, db2)
  | .error e => ({ success := false, data := none, error := some e.message }, db)

/-- Date comparison used to model `orderBy: \x7b date: "desc" \x7d`. -/
def JSDate.le (a b : JSDate) : Bool :=
  a.year < b.year ||
    (a.year == b.year && (a.month < b.month || (a.month == b.month && a.day ≤ b.day)))

/-- Insertion step of the descending-by-date ordering. -/
def insertDesc (t : Transaction) : List Transaction → List Transaction
  | [] => [t]
  | u :: us => if JSDate.le u.date t.date then t :: u :: us else u :: insertDesc t us

/-- `orderBy: \x7b date: "desc" \x7d` over the matched rows. -/
def sortByDateDesc : List Transaction → List Transaction
  | [] => []
  | t :: ts => insertDesc t (sortByDateDesc ts)

/-- The body of getUserTransactions up to the try/catch boundary. The
caller-supplied equality filter is modelled as a predicate combined with
the ownership filter. -/
def getUserTransactionsRaw (authUserId : Option String)
    (query : Transaction → Bool) (db : DB) : Except TxError (List Transaction) :=
  match authUserId with
  | none => .error .unauthorized
  | some userId =>
    match db.findUser userId with
    | none => .error .userNotFound
    | some user =>
      .ok ((sortByDateDesc
        (db.transactions.filter (fun t => t.userId == user.id && query t))).map serializeAmount)

/-- getUserTransactions with its try/catch boundary. It performs no
write, so it returns only the uniform result object. -/
def getUserTransactions (authUserId : Option String)
    (query : Transaction → Bool) (db : DB) : ActionResult (List Transaction) :=
  match getUserTransactionsRaw authUserId query db with
  | .ok ts => { success := true, data := some ts, error := none }
  | .error e => { success := false, data := none, error := some e.message }

/-! ## Specification-side notions for the balance claims -/

/-- The signed amount of the specification: the amount itself for
income, its negation for expense. The body is exactly the balance-change
ternary of the source. -/
def signedAmount (ty : TxType) (amount : Int) : Int :=
  if ty == TxType.EXPENSE then -amount else amount

/-- The sum of signed amounts of the stored transactions of one
account. -/
def sumSigned (l : List Transaction) (accId : Nat) : Int :=
  (l.map (fun t => if t.accountId == accId then signedAmount t.type t.amount else 0)).sum

/-- The materialized-aggregate invariant of the specification: every
account balance equals the sum of signed amounts of the transactions
currently stored for that account. -/
def AccountInvariant (db : DB) : Prop :=
  ∀ a ∈ db.accounts, a.balance = sumSigned db.transactions a.id

instance : DecidablePred AccountInvariant := fun db => by
  unfold AccountInvariant; infer_instance

/-- The mutual-consistency predicate of the specification on the
recurrence fields of a stored transaction: flag, interval presence and
next-date presence agree, and a present next date is the advanced
date. -/
def recurrenceConsistent (t : Transaction) : Bool :=
  (t.isRecurring == t.recurringInterval.isSome) &&
  (t.isRecurring == t.nextRecurringDate.isSome) &&
  (match t.recurringInterval, t.nextRecurringDate with
   | some _, some nd => nd == calculateNextRecurringDate t.date t.recurringInterval
   | _, _ => true)

/-! ## Concrete states used by the witnesses and counterexamples -/

/-- One user, one account with balance 100, no transactions yet. -/
def exDB : DB := ⟨[⟨1, "alice"⟩], [⟨10, 1, 100⟩], [], 0⟩

/-- An allowing abuse-limiting decision. -/
def allowDec : ArcjetDecision := ⟨false, false⟩

/-- Input of the create scenario: EXPENSE of 30, not recurring. -/
def exData : TxData := ⟨10, TxType.EXPENSE, 30, ⟨2024, 0, 15⟩, "groceries", false, none⟩

/-- State with a stored EXPENSE of 30 on the account, balance 70. -/
def exDB1 : DB :=
  ⟨[⟨1, "alice"⟩], [⟨10, 1, 70⟩],
   [⟨0, 1, 10, TxType.EXPENSE, 30, ⟨2024, 0, 15⟩, "groceries", false, none, none⟩], 1⟩

/-- Update input turning the stored expense into an INCOME of 50. -/
def exData1 : TxData := ⟨10, TxType.INCOME, 50, ⟨2024, 0, 15⟩, "groceries", false, none⟩

/-- Create input with the recurrence flag set but no interval supplied. -/
def exDataBad : TxData := ⟨10, TxType.EXPENSE, 30, ⟨2024, 0, 15⟩, "groceries", true, none⟩

/-- Create input of the monthly-recurrence scenario. -/
def exDataRec : TxData :=
  ⟨10, TxType.EXPENSE, 30, ⟨2024, 0, 15⟩, "groceries", true, some ("MONTHLY")⟩

/-- Two accounts of the same user; the stored expense sits on account
10 and the balances satisfy the aggregate invariant. -/
def exDB3 : DB :=
  ⟨[⟨1, "alice"⟩], [⟨10, 1, -30⟩, ⟨20, 1, 0⟩],
   [⟨0, 1, 10, TxType.EXPENSE, 30, ⟨2024, 0, 15⟩, "groceries", false, none, none⟩], 1⟩

/-- Update input moving the stored transaction to account 20, keeping
its type and amount. -/
def exData3 : TxData := ⟨20, TxType.EXPENSE, 30, ⟨2024, 0, 15⟩, "groceries", false, none⟩

/-- Two users: the acting user owns account 10 and the stored expense;
account 20 belongs to the other user. -/
def exDB5 : DB :=
  ⟨[⟨1, "alice"⟩, ⟨2, "bob"⟩], [⟨10, 1, 70⟩, ⟨20, 2, 0⟩],
   [⟨0, 1, 10, TxType.EXPENSE, 30, ⟨2024, 0, 15⟩, "groceries", false, none, none⟩], 1⟩

/-- Update input pointing the transaction at the other user's account. -/
def exData5 : TxData := ⟨20, TxType.INCOME, 50, ⟨2024, 0, 15⟩, "groceries", false, none⟩

/-- The row and state produced by the account-moving update on `exDB3`. -/
def exTx3 : Transaction :=
  ⟨0, 1, 20, TxType.EXPENSE, 30, ⟨2024, 0, 15⟩, "groceries", false, none, none⟩

def exDB3After : DB := ⟨[⟨1, "alice"⟩], [⟨10, 1, -30⟩, ⟨20, 1, 0⟩], [exTx3], 1⟩

/-- The row and state produced by the cross-user update on `exDB5`. -/
def exTx5 : Transaction :=
  ⟨0, 1, 20, TxType.INCOME, 50, ⟨2024, 0, 15⟩, "groceries", false, none, none⟩

def exDB5After : DB :=
  ⟨[⟨1, "alice"⟩, ⟨2, "bob"⟩], [⟨10, 1, 70⟩, ⟨20, 2, 80⟩], [exTx5], 1⟩

/-- The row and state produced by creating with the recurrence flag set
but no interval. -/
def exTxBad : Transaction :=
  ⟨0, 1, 10, TxType.EXPENSE, 30, ⟨2024, 0, 15⟩, "groceries", true, none, none⟩

def exDBBadAfter : DB := ⟨[⟨1, "alice"⟩], [⟨10, 1, 70⟩], [exTxBad], 1⟩

/-- The row and state produced by the monthly-recurrence create. -/
def exTxRec : Transaction :=
  ⟨0, 1, 10, TxType.EXPENSE, 30, ⟨2024, 0, 15⟩, "groceries", true, some ("MONTHLY"),
   some ⟨2024, 1, 15⟩⟩

def exDBRecAfter : DB := ⟨[⟨1, "alice"⟩], [⟨10, 1, 70⟩], [exTxRec], 1⟩

/-! ## Helper lemmas about the persistence primitives -/

lemma daysInMonth_ge (y : Int) (m : Nat) : 28 ≤ daysInMonth y m := by
  unfold daysInMonth
  split <;> first | omega | (split <;> omega)

/-- Bridge between the Date normalization loop and the spec-side calendar
successor: starting from a valid date, adding `k` to the day and
normalizing is taking `k` calendar successors. -/
lemma normDayFuel_eq_addCalendarDays :
    ∀ (k fuel : Nat) (y : Int) (m d : Nat), m ≤ 11 → 1 ≤ d →
      d ≤ daysInMonth y m → d + k ≤ fuel →
      normDayFuel fuel y m (d + k) = addCalendarDays k ⟨y, m, d⟩ := by
  intro k
  induction k with
  | zero =>
    intro fuel y m d _ _ h3 h4
    cases fuel with
    | zero => omega
    | succ f =>
      simp only [Nat.add_zero, normDayFuel, addCalendarDays]
      rw [if_neg (by omega)]
  | succ k ih =>
    intro fuel y m d h1 h2 h3 h4
    by_cases hlt : d < daysInMonth y m
    · have hidx : d + (k + 1) = (d + 1) + k := by omega
      rw [hidx, ih fuel y m (d + 1) h1 (by omega) (by omega) (by omega)]
      have hnext : nextCalendarDay ⟨y, m, d⟩ = ⟨y, m, d + 1⟩ := by
        simp [nextCalendarDay, hlt]
      simp only [addCalendarDays, hnext]
    · have hd : d = daysInMonth y m := by omega
      cases fuel with
      | zero => omega
      | succ f =>
        have hdim : 28 ≤ daysInMonth y m := daysInMonth_ge y m
        simp only [normDayFuel]
        rw [if_pos (by omega)]
        have hnext : nextCalendarDay ⟨y, m, d⟩ =
            if m == 11 then ⟨y + 1, 0, 1⟩ else ⟨y, m + 1, 1⟩ := by
          simp [nextCalendarDay, hlt]
        have hrest : d + (k + 1) - daysInMonth y m = 1 + k := by omega
        cases hm : (m == 11) with
        | true =>
          rw [if_pos rfl, hrest,
            ih f (y + 1) 0 1 (by omega) (by omega) (by have := daysInMonth_ge (y + 1) 0; omega) (by omega)]
          simp [addCalendarDays, hnext, hm]
        | false =>
          have hm11 : m ≠ 11 := by
            intro hcon; rw [hcon] at hm; simp at hm
          rw [if_neg (by simp), hrest,
            ih f y (m + 1) 1 (by omega) (by omega) (by have := daysInMonth_ge y (m + 1); omega) (by omega)]
          simp [addCalendarDays, hnext, hm]

lemma incrementBalance_ok {db : DB} {i : Nat} {d : Int} {db2 : DB}
    (h : db.incrementBalance i d = .ok db2) :
    db2.users = db.users ∧ db2.transactions = db.transactions ∧ db2.nextId = db.nextId ∧
    db2.accounts = db.accounts.map (fun a =>
      if a.id == i then { a with balance := a.balance + d } else a) := by
  unfold DB.incrementBalance at h
  split at h
  · cases h
    exact ⟨rfl, rfl, rfl, rfl⟩
  · cases h

lemma updateRow_ok {db : DB} {tid uid : Nat} {t : Transaction} {db1 : DB}
    (h : db.updateTransactionRow tid uid t = .ok db1) :
    db1.users = db.users ∧ db1.accounts = db.accounts ∧ db1.nextId = db.nextId ∧
    db1.transactions = db.transactions.map (fun u =>
      if u.id == tid && u.userId == uid then t else u) := by
  unfold DB.updateTransactionRow at h
  split at h
  · cases h
    exact ⟨rfl, rfl, rfl, rfl⟩
  · cases h

lemma find?_map_of_id (f : Account → Account) (hf : ∀ a, (f a).id = a.id) (x : Nat) :
    ∀ l : List Account,
      (l.map f).find? (fun a => a.id == x) = (l.find? (fun a => a.id == x)).map f := by
  intro l
  induction l with
  | nil => rfl
  | cons a tl ih =>
    simp only [List.map_cons, List.find?, hf a]
    cases hax : a.id == x
    · exact ih
    · rfl

lemma getBalance_bump (l : List Account) (i : Nat) (d : Int) (x : Nat) :
    ((l.map (fun a => if a.id == i then { a with balance := a.balance + d } else a)).find?
        (fun a => a.id == x)).map (fun a => a.balance)
      = if x = i then
          ((l.find? (fun a => a.id == x)).map (fun a => a.balance)).map (fun v => v + d)
        else (l.find? (fun a => a.id == x)).map (fun a => a.balance) := by
  rw [find?_map_of_id _ (fun a => by split <;> rfl) x]
  cases hfind : l.find? (fun a => a.id == x) with
  | none => by_cases hxi : x = i <;> simp [hxi]
  | some a =>
    have hax : a.id = x := by
      have := List.find?_some hfind
      simpa using this
    by_cases hxi : x = i
    · subst hxi
      simp [hax]
    · have hne : ¬ (a.id = i) := by rw [hax]; exact hxi
      simp [hxi, hne]

/-- Inversion of a successful createTransaction body: the caller was
authenticated and allowed, the user and the owned account existed, the
row was appended, and exactly the signed amount was added to the
balance of every account with the target id. -/
lemma createRaw_inv {auth : Option String} {dec : ArcjetDecision} {data : TxData}
    {db : DB} {t : Transaction} {db2 : DB}
    (h : createTransactionRaw auth dec data db = .ok (t, db2)) :
    (∃ cuid user account, auth = some cuid ∧ dec.isDenied = false ∧
        db.findUser cuid = some user ∧ db.findAccount data.accountId user.id = some account ∧
        t = newTransactionRow db user data) ∧
    db2.users = db.users ∧ db2.nextId = db.nextId + 1 ∧
    db2.transactions = db.transactions ++ [t] ∧
    db2.accounts = db.accounts.map (fun a =>
      if a.id == data.accountId then
        { a with balance := a.balance + signedAmount data.type data.amount } else a) := by
  unfold createTransactionRaw at h
  split at h
  next => cases h
  next userId =>
    split at h
    next => split at h <;> cases h
    next hden =>
      split at h
      next => cases h
      next user huser =>
        split at h
        next => cases h
        next account hacc =>
          split at h
          next e hinc => cases h
          next db2x hinc =>
            injection h with hp
            cases hp
            obtain ⟨hu, htx, hn, haccs⟩ := incrementBalance_ok hinc
            refine ⟨⟨userId, user, account, rfl, by simpa using hden, huser, hacc, rfl⟩,
              ?_, ?_, ?_, ?_⟩
            · exact hu
            · exact hn
            · exact htx
            · exact haccs

/-- Inversion of a successful updateTransaction body: the caller was
authenticated, owned the original row, the row was replaced, and the
net signed change was added to the balance of every account with the
target id — whether or not the caller owns that account. -/
lemma updateRaw_inv {auth : Option String} {tid : Nat} {data : TxData}
    {db : DB} {t : Transaction} {db2 : DB}
    (h : updateTransactionRaw auth tid data db = .ok (t, db2)) :
    ∃ cuid user original,
      auth = some cuid ∧ db.findUser cuid = some user ∧
      db.findTransaction tid user.id = some original ∧
      t = updatedTransactionRow original data ∧
      db2.users = db.users ∧ db2.nextId = db.nextId ∧
      db2.transactions = db.transactions.map (fun u =>
        if u.id == tid && u.userId == user.id then t else u) ∧
      db2.accounts = db.accounts.map (fun a =>
        if a.id == data.accountId then
          { a with balance := a.balance +
            (signedAmount data.type data.amount - signedAmount original.type original.amount) }
        else a) := by
  unfold updateTransactionRaw at h
  split at h
  next => cases h
  next userId =>
    split at h
    next => cases h
    next user huser =>
      split at h
      next => cases h
      next original horig =>
        split at h
        next e hrow => cases h
        next db1 hrow =>
          split at h
          next e hinc => cases h
          next db2x hinc =>
            injection h with hp
            cases hp
            obtain ⟨hu1, ha1, hn1, htx1⟩ := updateRow_ok hrow
            obtain ⟨hu2, htx2, hn2, haccs2⟩ := incrementBalance_ok hinc
            refine ⟨userId, user, original, rfl, huser, horig, rfl, ?_, ?_, ?_, ?_⟩
            · rw [hu2, hu1]
            · rw [hn2, hn1]
            · rw [htx2, htx1]
            · rw [haccs2, ha1]
              rfl

/-! ## Claim theorems -/

/-- C7: for every amount, the signed amount of the specification is the
amount itself for INCOME and its negation for EXPENSE, and the
balance-change ternary used by both the create and update paths of the
source computes exactly this signed amount. -/
theorem c7_signed_amount_contract :
    ∀ a : Int, signedAmount TxType.INCOME a = a ∧ signedAmount TxType.EXPENSE a = -a ∧
      ∀ ty : TxType, (if ty == TxType.EXPENSE then -a else a) = signedAmount ty a := by
  intro a
  exact ⟨rfl, rfl, fun _ => rfl⟩

/-- C2: every successful create call adds exactly the signed amount of
the new transaction to the balance of the referenced account. -/
theorem c2_create_balance_delta {auth : Option String} {dec : ArcjetDecision}
    {data : TxData} {db : DB} {b : Int}
    (h : (createTransaction auth dec data db).1.success = true)
    (hb : db.getBalance data.accountId = some b) :
    (createTransaction auth dec data db).2.getBalance data.accountId
      = some (b + signedAmount data.type data.amount) := by
  unfold createTransaction at h ⊢
  cases hraw : createTransactionRaw auth dec data db with
  | error e => rw [hraw] at h; simp at h
  | ok p =>
    obtain ⟨t, db2⟩ := p
    simp only [hraw]
    obtain ⟨-, -, -, -, haccs⟩ := createRaw_inv hraw
    show db2.getBalance data.accountId = _
    unfold DB.getBalance
    rw [haccs, getBalance_bump, if_pos rfl]
    unfold DB.getBalance at hb
    rw [hb]
    rfl

/-- Witness for C2: creating an EXPENSE of 30 on an account with
balance 100 leaves balance 70. -/
theorem c2_create_balance_delta_witness :
    (createTransaction (some ("alice")) allowDec exData exDB).1.success = true ∧
    exDB.getBalance 10 = some 100 ∧
    (createTransaction (some ("alice")) allowDec exData exDB).2.getBalance 10
      = some (100 + signedAmount TxType.EXPENSE 30) := by
  exact ⟨by decide, by decide, c2_create_balance_delta (by decide) (by decide)⟩

/-- C1: every successful update call adds exactly the difference of the
new and the original signed amounts to the balance of the account the
update references. -/
theorem c1_update_balance_delta {auth : Option String} {tid : Nat} {data : TxData}
    {db : DB} {cuid : String} {user : User} {orig : Transaction} {b : Int}
    (h : (updateTransaction auth tid data db).1.success = true)
    (hauth : auth = some cuid)
    (huser : db.findUser cuid = some user)
    (horig : db.findTransaction tid user.id = some orig)
    (hb : db.getBalance data.accountId = some b) :
    (updateTransaction auth tid data db).2.getBalance data.accountId
      = some (b + (signedAmount data.type data.amount - signedAmount orig.type orig.amount)) := by
  unfold updateTransaction at h ⊢
  cases hraw : updateTransactionRaw auth tid data db with
  | error e => rw [hraw] at h; simp at h
  | ok p =>
    obtain ⟨t, db2⟩ := p
    simp only [hraw]
    obtain ⟨cuid2, user2, orig2, hauth2, huser2, horig2, -, -, -, -, haccs⟩ := updateRaw_inv hraw
    rw [hauth] at hauth2
    injection hauth2 with hcu
    subst hcu
    rw [huser] at huser2
    injection huser2 with hus
    subst hus
    rw [horig] at horig2
    injection horig2 with hor
    subst hor
    show db2.getBalance data.accountId = _
    unfold DB.getBalance
    rw [haccs, getBalance_bump, if_pos rfl]
    unfold DB.getBalance at hb
    rw [hb]
    rfl

/-- Witness for C1 (the type-flip scenario of the specification):
updating a stored EXPENSE of 30 to an INCOME of 50 on an account with
balance 70 yields balance 150. -/
theorem c1_update_balance_delta_witness :
    (updateTransaction (some ("alice")) 0 exData1 exDB1).1.success = true ∧
    exDB1.findUser "alice" = some ⟨1, "alice"⟩ ∧
    exDB1.findTransaction 0 1
      = some ⟨0, 1, 10, TxType.EXPENSE, 30, ⟨2024, 0, 15⟩, "groceries", false, none, none⟩ ∧
    exDB1.getBalance 10 = some 70 ∧
    (updateTransaction (some ("alice")) 0 exData1 exDB1).2.getBalance 10
      = some (70 + (signedAmount TxType.INCOME 50 - signedAmount TxType.EXPENSE 30)) := by
  exact ⟨by decide, by decide, by decide, by decide,
    @c1_update_balance_delta (some ("alice")) 0 exData1 exDB1 "alice" ⟨1, "alice"⟩
      ⟨0, 1, 10, TxType.EXPENSE, 30, ⟨2024, 0, 15⟩, "groceries", false, none, none⟩ 70
      (by decide) rfl (by decide) (by decide) (by decide)⟩

/-- C10: calculateNextRecurringDate is a total function, and for every
interval value outside the four recognized strings — including an
absent interval — it returns the start date unchanged. -/
theorem c10_next_recurring_total {dt : JSDate} {interval : Option String}
    (h1 : interval ≠ some ("DAILY")) (h2 : interval ≠ some ("WEEKLY"))
    (h3 : interval ≠ some ("MONTHLY")) (h4 : interval ≠ some ("YEARLY")) :
    calculateNextRecurringDate dt interval = dt := by
  have e1 : (interval == some ("DAILY")) = false := beq_eq_false_iff_ne.mpr h1
  have e2 : (interval == some ("WEEKLY")) = false := beq_eq_false_iff_ne.mpr h2
  have e3 : (interval == some ("MONTHLY")) = false := beq_eq_false_iff_ne.mpr h3
  have e4 : (interval == some ("YEARLY")) = false := beq_eq_false_iff_ne.mpr h4
  simp [calculateNextRecurringDate, e1, e2, e3, e4]

/-- Witness for C10: an absent interval returns the date unchanged. -/
theorem c10_next_recurring_total_witness :
    ((none : Option String) ≠ some ("DAILY") ∧ (none : Option String) ≠ some ("WEEKLY") ∧
     (none : Option String) ≠ some ("MONTHLY") ∧ (none : Option String) ≠ some ("YEARLY")) ∧
    calculateNextRecurringDate ⟨2024, 0, 15⟩ none = ⟨2024, 0, 15⟩ := by
  exact ⟨⟨by decide, by decide, by decide, by decide⟩,
    c10_next_recurring_total (by decide) (by decide) (by decide) (by decide)⟩

/-- C8: on every valid date, the DAILY interval advances the date by
exactly one calendar day and the WEEKLY interval by exactly seven,
with no other month or year effects beyond those of the calendar
successor, including across month boundaries. -/
theorem c8_advance_daily_weekly {dt : JSDate} (hv : ValidDate dt) :
    calculateNextRecurringDate dt (some ("DAILY")) = addCalendarDays 1 dt ∧
    calculateNextRecurringDate dt (some ("WEEKLY")) = addCalendarDays 7 dt := by
  obtain ⟨h1, h2, h3⟩ := hv
  constructor
  · have e1 : ((some ("DAILY") : Option String) == some ("DAILY")) = true := by decide
    have e2 : ((some ("DAILY") : Option String) == some ("WEEKLY")) = false := by decide
    have e3 : ((some ("DAILY") : Option String) == some ("MONTHLY")) = false := by decide
    have e4 : ((some ("DAILY") : Option String) == some ("YEARLY")) = false := by decide
    simp [calculateNextRecurringDate, e1, e2, e3, e4]
    exact normDayFuel_eq_addCalendarDays 1 (dt.day + 1) dt.year dt.month dt.day
      h1 h2 h3 (Nat.le_refl _)
  · have e1 : ((some ("WEEKLY") : Option String) == some ("DAILY")) = false := by decide
    have e2 : ((some ("WEEKLY") : Option String) == some ("WEEKLY")) = true := by decide
    have e3 : ((some ("WEEKLY") : Option String) == some ("MONTHLY")) = false := by decide
    have e4 : ((some ("WEEKLY") : Option String) == some ("YEARLY")) = false := by decide
    simp [calculateNextRecurringDate, e1, e2, e3, e4]
    exact normDayFuel_eq_addCalendarDays 7 (dt.day + 7) dt.year dt.month dt.day
      h1 h2 h3 (Nat.le_refl _)

/-- Witness for C8 at the month boundary of the claim: Jan 31 2024 with
DAILY advances to Feb 1 2024, and with WEEKLY to Feb 7 2024. -/
theorem c8_advance_daily_weekly_witness :
    ValidDate ⟨2024, 0, 31⟩ ∧
    (calculateNextRecurringDate ⟨2024, 0, 31⟩ (some ("DAILY"))
        = addCalendarDays 1 ⟨2024, 0, 31⟩ ∧
     calculateNextRecurringDate ⟨2024, 0, 31⟩ (some ("WEEKLY"))
        = addCalendarDays 7 ⟨2024, 0, 31⟩) ∧
    addCalendarDays 1 ⟨2024, 0, 31⟩ = ⟨2024, 1, 1⟩ ∧
    addCalendarDays 7 ⟨2024, 0, 31⟩ = ⟨2024, 1, 7⟩ := by
  exact ⟨by decide, c8_advance_daily_weekly (by decide), by decide, by decide⟩

/-- A written row whose recurrence fields come from input data with a
flag matching the presence of a non-empty interval is consistent. -/
lemma recurrenceConsistent_of_row (data : TxData) (t : Transaction)
    (hflag : t.isRecurring = data.isRecurring)
    (hint : t.recurringInterval = data.recurringInterval)
    (hdate : t.date = data.date)
    (hnext : t.nextRecurringDate =
      if data.isRecurring && truthy data.recurringInterval then
        some (calculateNextRecurringDate data.date data.recurringInterval)
      else none)
    (hwf : data.isRecurring = data.recurringInterval.isSome)
    (hne : data.recurringInterval ≠ some ("")) :
    recurrenceConsistent t = true := by
  unfold recurrenceConsistent
  cases hil : data.recurringInterval with
  | none =>
    have hflag2 : data.isRecurring = false := by rw [hwf, hil]; rfl
    rw [hflag2, hil] at hnext
    simp only [Bool.false_and] at hnext
    rw [if_neg (by simp)] at hnext
    simp [hflag, hint, hnext, hil, hflag2]
  | some s =>
    have hflag2 : data.isRecurring = true := by rw [hwf, hil]; rfl
    have hs : s.isEmpty = false := by
      cases hse : s.isEmpty
      · rfl
      · exact absurd (by rw [(String.isEmpty_iff s).mp hse] at hil; exact hil) hne
    have htr : truthy data.recurringInterval = true := by
      rw [hil]; simp [truthy, hs]
    rw [hflag2, htr] at hnext
    simp only [Bool.and_self, if_true] at hnext
    rw [hflag, hint, hdate, hnext, hil, hflag2]
    simp [hil]

/-- C6 counterexample: a create call whose input sets the recurrence
flag but supplies no interval succeeds and stores a transaction whose
recurrence fields are mutually inconsistent (flag true, interval and
next date absent). -/
theorem c6_recurrence_counterexample :
    createTransactionRaw (some ("alice")) allowDec exDataBad exDB
      = .ok (exTxBad, exDBBadAfter) ∧
    exTxBad.isRecurring = true ∧ exTxBad.recurringInterval = none ∧
    recurrenceConsistent exTxBad = false := by
  exact ⟨rfl, by decide, by decide, by decide⟩

/-- C6 (amended): every transaction written by createTransaction or
updateTransaction from input whose recurrence flag equals the presence
of its interval — the interval, when present, being a non-empty string —
has mutually consistent recurrence fields: flag, interval presence and
next-date presence agree, and the next date equals the advanced date.
Inputs whose flag and interval disagree are stored as given, without
validation, and violate the consistency (see the counterexample). -/
theorem c6_recurrence_amended :
    (∀ (auth : Option String) (dec : ArcjetDecision) (data : TxData) (db : DB)
        (t : Transaction) (db2 : DB),
      data.isRecurring = data.recurringInterval.isSome →
      data.recurringInterval ≠ some ("") →
      createTransactionRaw auth dec data db = .ok (t, db2) →
      recurrenceConsistent t = true) ∧
    (∀ (auth : Option String) (tid : Nat) (data : TxData) (db : DB)
        (t : Transaction) (db2 : DB),
      data.isRecurring = data.recurringInterval.isSome →
      data.recurringInterval ≠ some ("") →
      updateTransactionRaw auth tid data db = .ok (t, db2) →
      recurrenceConsistent t = true) := by
  constructor
  · intro auth dec data db t db2 hwf hne h
    obtain ⟨⟨cuid, user, account, -, -, -, -, ht⟩, -, -, -, -⟩ := createRaw_inv h
    subst ht
    exact recurrenceConsistent_of_row data _ rfl rfl rfl rfl hwf hne
  · intro auth tid data db t db2 hwf hne h
    obtain ⟨cuid, user, original, -, -, -, ht, -, -, -, -⟩ := updateRaw_inv h
    subst ht
    exact recurrenceConsistent_of_row data _ rfl rfl rfl rfl hwf hne

/-- Witness for the amended C6: the monthly-recurrence create of the
specification scenario (date 2024-01-15) stores next date 2024-02-15
and satisfies the consistency predicate. -/
theorem c6_recurrence_amended_witness :
    (exDataRec.isRecurring = exDataRec.recurringInterval.isSome ∧
     exDataRec.recurringInterval ≠ some ("") ∧
     createTransactionRaw (some ("alice")) allowDec exDataRec exDB
       = .ok (exTxRec, exDBRecAfter)) ∧
    exTxRec.nextRecurringDate = some ⟨2024, 1, 15⟩ ∧
    recurrenceConsistent exTxRec = true := by
  exact ⟨⟨by decide, by decide, rfl⟩, by decide,
    c6_recurrence_amended.1 (some ("alice")) allowDec exDataRec exDB exTxRec exDBRecAfter
      (by decide) (by decide) rfl⟩

/-- C3 demonstration: updating a stored transaction to a different
account of the same user leaves the aggregate invariant broken: the
whole net change lands on the new account while the old account keeps
the contribution of the moved row. Before the call the invariant holds;
the call succeeds; after it the invariant is false. -/
theorem c3_invariant_violation_demo :
    AccountInvariant exDB3 ∧
    updateTransactionRaw (some ("alice")) 0 exData3 exDB3 = .ok (exTx3, exDB3After) ∧
    ¬ AccountInvariant exDB3After := by
  exact ⟨by decide, rfl, by decide⟩

/-- C5 demonstration: the update path performs no existence or
ownership check on `data.accountId`. Account 20 does not belong to the
acting user (the ownership lookup fails), yet the update succeeds and
increments that account balance from 0 to 80 instead of failing with
the not-found error. -/
theorem c5_update_ownership_demo :
    exDB5.findAccount 20 1 = none ∧
    updateTransactionRaw (some ("alice")) 0 exData5 exDB5 = .ok (exTx5, exDB5After) ∧
    exDB5.getBalance 20 = some 0 ∧
    exDB5After.getBalance 20 = some 80 := by
  exact ⟨by decide, rfl, by decide, by decide⟩

/-- C4: create and update are atomic. A call whose boundary result is a
failure leaves the database exactly as it was — no transaction row and
no balance changed. A call whose boundary result is a success performed
both effects: the row write and the balance increment by the signed
delta. -/
theorem c4_atomicity :
    (∀ (auth : Option String) (dec : ArcjetDecision) (data : TxData) (db : DB),
        (createTransaction auth dec data db).1.success = false →
        (createTransaction auth dec data db).2 = db) ∧
    (∀ (auth : Option String) (dec : ArcjetDecision) (data : TxData) (db : DB),
        (createTransaction auth dec data db).1.success = true →
        ∃ t, (createTransaction auth dec data db).1.data = some t ∧
          (createTransaction auth dec data db).2.transactions = db.transactions ++ [t] ∧
          (createTransaction auth dec data db).2.getBalance data.accountId
            = (db.getBalance data.accountId).map
                (fun v => v + signedAmount data.type data.amount)) ∧
    (∀ (auth : Option String) (tid : Nat) (data : TxData) (db : DB),
        (updateTransaction auth tid data db).1.success = false →
        (updateTransaction auth tid data db).2 = db) ∧
    (∀ (auth : Option String) (tid : Nat) (data : TxData) (db : DB),
        (updateTransaction auth tid data db).1.success = true →
        ∃ t cuid user orig,
          auth = some cuid ∧ db.findUser cuid = some user ∧
          db.findTransaction tid user.id = some orig ∧
          (updateTransaction auth tid data db).1.data = some t ∧
          t = updatedTransactionRow orig data ∧
          (updateTransaction auth tid data db).2.transactions
            = db.transactions.map
                (fun u => if u.id == tid && u.userId == user.id then t else u) ∧
          (updateTransaction auth tid data db).2.getBalance data.accountId
            = (db.getBalance data.accountId).map
                (fun v => v + (signedAmount data.type data.amount
                  - signedAmount orig.type orig.amount))) := by
  refine ⟨?_, ?_, ?_, ?_⟩
  · intro auth dec data db h
    unfold createTransaction at h ⊢
    cases hraw : createTransactionRaw auth dec data db with
    | ok p => rw [hraw] at h; simp at h
    | error e => rfl
  · intro auth dec data db h
    unfold createTransaction at h ⊢
    cases hraw : createTransactionRaw auth dec data db with
    | error e => rw [hraw] at h; simp at h
    | ok p =>
      obtain ⟨t, db2⟩ := p
      simp only [hraw]
      obtain ⟨-, -, -, htx, haccs⟩ := createRaw_inv hraw
      refine ⟨t, rfl, htx, ?_⟩
      show db2.getBalance data.accountId = _
      unfold DB.getBalance
      rw [haccs, getBalance_bump, if_pos rfl]
  · intro auth tid data db h
    unfold updateTransaction at h ⊢
    cases hraw : updateTransactionRaw auth tid data db with
    | ok p => rw [hraw] at h; simp at h
    | error e => rfl
  · intro auth tid data db h
    unfold updateTransaction at h ⊢
    cases hraw : updateTransactionRaw auth tid data db with
    | error e => rw [hraw] at h; simp at h
    | ok p =>
      obtain ⟨t, db2⟩ := p
      simp only [hraw]
      obtain ⟨cuid, user, orig, hauth, huser, horig, ht, -, -, htx, haccs⟩ :=
        updateRaw_inv hraw
      refine ⟨t, cuid, user, orig, hauth, huser, horig, rfl, ht, htx, ?_⟩
      show db2.getBalance data.accountId = _
      unfold DB.getBalance
      rw [haccs, getBalance_bump, if_pos rfl]

/-- Witness for C4: an unauthenticated create fails and leaves the
state untouched. -/
theorem c4_atomicity_witness :
    (createTransaction none allowDec exData exDB).1.success = false ∧
    (createTransaction none allowDec exData exDB).2 = exDB := by
  exact ⟨by decide, c4_atomicity.1 none allowDec exData exDB (by decide)⟩

/-- C9: createTransaction, updateTransaction and getUserTransactions
catch every internal failure at their boundary and return the uniform
result object — success with data and no error, or failure with no
data and the message of the caught error — never letting the error
escape; getTransaction propagates every failure (unauthenticated, user
not found, transaction not found) directly to its caller. -/
theorem c9_error_propagation :
    (∀ (auth : Option String) (dec : ArcjetDecision) (data : TxData) (db : DB),
      ((createTransaction auth dec data db).1.success = true ∧
        (createTransaction auth dec data db).1.error = none ∧
        (createTransaction auth dec data db).1.data ≠ none) ∨
      ((createTransaction auth dec data db).1.success = false ∧
        (createTransaction auth dec data db).1.data = none ∧
        ∃ e : TxError, (createTransaction auth dec data db).1.error = some e.message ∧
          createTransactionRaw auth dec data db = .error e)) ∧
    (∀ (auth : Option String) (tid : Nat) (data : TxData) (db : DB),
      ((updateTransaction auth tid data db).1.success = true ∧
        (updateTransaction auth tid data db).1.error = none ∧
        (updateTransaction auth tid data db).1.data ≠ none) ∨
      ((updateTransaction auth tid data db).1.success = false ∧
        (updateTransaction auth tid data db).1.data = none ∧
        ∃ e : TxError, (updateTransaction auth tid data db).1.error = some e.message ∧
          updateTransactionRaw auth tid data db = .error e)) ∧
    (∀ (auth : Option String) (q : Transaction → Bool) (db : DB),
      ((getUserTransactions auth q db).success = true ∧
        (getUserTransactions auth q db).error = none ∧
        (getUserTransactions auth q db).data ≠ none) ∨
      ((getUserTransactions auth q db).success = false ∧
        (getUserTransactions auth q db).data = none ∧
        ∃ e : TxError, (getUserTransactions auth q db).error = some e.message ∧
          getUserTransactionsRaw auth q db = .error e)) ∧
    (∀ (tid : Nat) (db : DB), getTransaction none tid db = .error .unauthorized) ∧
    (∀ (cuid : String) (tid : Nat) (db : DB), db.findUser cuid = none →
      getTransaction (some cuid) tid db = .error .userNotFound) ∧
    (∀ (cuid : String) (user : User) (tid : Nat) (db : DB),
      db.findUser cuid = some user → db.findTransaction tid user.id = none →
      getTransaction (some cuid) tid db = .error .transactionNotFound) ∧
    (∀ (cuid : String) (user : User) (t : Transaction) (tid : Nat) (db : DB),
      db.findUser cuid = some user → db.findTransaction tid user.id = some t →
      getTransaction (some cuid) tid db = .ok (serializeAmount t)) := by
  refine ⟨?_, ?_, ?_, ?_, ?_, ?_, ?_⟩
  · intro auth dec data db
    unfold createTransaction
    cases hraw : createTransactionRaw auth dec data db with
    | ok p =>
      obtain ⟨t, db2⟩ := p
      exact Or.inl ⟨rfl, rfl, by simp⟩
    | error e => exact Or.inr ⟨rfl, rfl, e, rfl, rfl⟩
  · intro auth tid data db
    unfold updateTransaction
    cases hraw : updateTransactionRaw auth tid data db with
    | ok p =>
      obtain ⟨t, db2⟩ := p
      exact Or.inl ⟨rfl, rfl, by simp⟩
    | error e => exact Or.inr ⟨rfl, rfl, e, rfl, rfl⟩
  · intro auth q db
    unfold getUserTransactions
    cases hraw : getUserTransactionsRaw auth q db with
    | ok ts => exact Or.inl ⟨rfl, rfl, by simp⟩
    | error e => exact Or.inr ⟨rfl, rfl, e, rfl, rfl⟩
  · intro tid db
    rfl
  · intro cuid tid db huser
    simp [getTransaction, huser]
  · intro cuid user tid db huser horig
    simp [getTransaction, huser, horig]
  · intro cuid user t tid db huser horig
    simp [getTransaction, huser, horig]

/-- Witness for C9: a lookup by an identity with no stored user throws
the user-not-found error to the caller of getTransaction. -/
theorem c9_error_propagation_witness :
    exDB.findUser "bob" = none ∧
    getTransaction (some ("bob")) 0 exDB = .error .userNotFound := by
  exact ⟨by decide, c9_error_propagation.2.2.2.2.1 "bob" 0 exDB (by decide)⟩
